import Mathlib

/-!
Verification of the `fun-with-adts` repository (src/fun-with-redux/index.js).

The script builds a small Redux-style state machine: validated entity types
(Field, Prop, Dataset), a closed tagged union of actions, three "application
modes" (Init, DatasetSelection, BindingSelection) inferred from the shape of
the state object, and per-mode reducers.  This file is a shallow embedding of
that script in Lean:

* JS arrays become `List`, JS plain objects used as string-keyed maps become
  insertion-ordered association lists `List (String × _)` (as produced by
  `Object.assign`), JS `null` on `selectedDataset` becomes `Option.none`.
* A JS function that can `throw` becomes a function into `Except JsErr _`;
  the `try { ... } catch { return false }` inside `AppModes.appModeOf`
  becomes `Except.toOption`.
* `AppModes.appModeOf` (index.js lines 234-249) probes
  `Object.keys(AppModes).filter(key => key.endsWith('Of'))`.  At the time the
  reducer runs (line 316), those keys are, in insertion order:
  `InitOf`, `DatasetSelectionOf`, `BindingSelectionOf`, `appModeOf`,
  `stateOf` — the last two having been attached to the same object at lines
  234 and 251.  The probe of the key `appModeOf` makes the function call
  itself recursively on the same state; we model the bounded JS call stack
  with an explicit fuel parameter, exhaustion raising `JsErr.stackOverflow`
  (the `RangeError` that the surrounding `try`/`catch` swallows).
-/

namespace FunWithRedux

/-- JavaScript exceptions thrown by the script, by site:
`validationError` is the `TypeError` union-type throws when a constructor
argument fails its shape predicate; `illegalTransition` is
`Error('bad state for action')`; `invalidState` is `Error('invalid state')`;
`stackOverflow` is the `RangeError` raised when the JS call stack is
exhausted; `typeError` is the `TypeError` raised by calling `.reduce` on a
value that is not an `AppModes` instance. -/
inductive JsErr where
  | validationError
  | illegalTransition
  | invalidState
  | stackOverflow
  | typeError
deriving DecidableEq, Repr

/-- `const every = fn => array => array.every(fn)` (index.js line 13). -/
def every (fn : α → Bool) (array : List α) : Bool :=
  array.all fn

/-- `Field = Type({Field: {name: String, type: String}})` (line 39). -/
structure Field where
  name : String
  type : String
deriving DecidableEq, Repr

/-- `Prop = Type({Prop: {name: String, types: Array}})` (line 43).
(`Prop` itself is a Lean sort, hence the prime.) -/
structure Prop' where
  name : String
  types : List String
deriving DecidableEq, Repr

/-- The `controllerRef: Object` payload; the sample data uses objects of the
shape `{type: 'something', id: 'somesuch'}` (lines 119, 132). -/
structure ControllerRef where
  type : String
  id : String
deriving DecidableEq, Repr

/-- `Dataset = Type({Dataset: {name, controllerRef, fields}})` (line 53),
after its fields have passed validation. -/
structure Dataset where
  name : String
  controllerRef : ControllerRef
  fields : List Field
deriving DecidableEq, Repr

/-- The `actions` tagged union (lines 74-80). -/
inductive Action where
  | InitApp (props : List Prop') (datasets : List Dataset)
  | SelectDataset (dataset : String)
  | ClearDataset
  | BindProp (prop : String) (field : String)
  | ClearProp (prop : String)
deriving DecidableEq, Repr

/-- The state record manipulated by the reducers; shape of `initialState`
(lines 146-152).  JS string-keyed objects (`datasetFields`, `bindings`) are
insertion-ordered association lists; `selectedDataset: null` is `none`. -/
structure ApplicationState where
  componentProperties : List Prop'
  availableDatasets : List String
  datasetFields : List (String × List Field)
  selectedDataset : Option String
  bindings : List (String × String)
deriving DecidableEq, Repr

/-- `const initialState = {...}` (lines 146-152). -/
def initialState : ApplicationState :=
  { componentProperties := []
    availableDatasets := []
    datasetFields := []
    selectedDataset := none
    bindings := [] }

-- App Mode helpers (lines 185-190)

/-- `isEmptyArray = array => Array.isArray(array) && array.length === 0`. -/
def isEmptyArray (array : List α) : Bool :=
  array.length == 0

/-- `isNonEmptyArray = array => Array.isArray(array) && array.length > 0`. -/
def isNonEmptyArray (array : List α) : Bool :=
  decide (array.length > 0)

/-- `isEmptyObject = obj => Object.keys(obj).length === 0`. -/
def isEmptyObject (obj : List (String × α)) : Bool :=
  obj.length == 0

/-- `isNonEmptyObject = obj => Object.keys(obj).length > 0`. -/
def isNonEmptyObject (obj : List (String × α)) : Bool :=
  decide (obj.length > 0)

/-- `isNil = a => a === null`. -/
def isNil (a : Option String) : Bool :=
  a.isNone

/-- `isNonNil = a => a !== null`. -/
def isNonNil (a : Option String) : Bool :=
  a.isSome

/-- Conjunction of the per-field validators of the `Init` variant of the
`AppModes` union (lines 197-203); union-type checks all of them when
`AppModes.InitOf(state)` is called. -/
def InitPred (s : ApplicationState) : Bool :=
  isEmptyArray s.componentProperties && isEmptyArray s.availableDatasets &&
    isEmptyObject s.datasetFields && isNil s.selectedDataset &&
    isEmptyObject s.bindings

/-- Per-field validators of the `DatasetSelection` variant (lines 204-210). -/
def DatasetSelectionPred (s : ApplicationState) : Bool :=
  isNonEmptyArray s.componentProperties && isNonEmptyArray s.availableDatasets &&
    isNonEmptyObject s.datasetFields && isNil s.selectedDataset &&
    isEmptyObject s.bindings

/-- Per-field validators of the `BindingSelection` variant (lines 211-217);
the `bindings` validator is `() => true`. -/
def BindingSelectionPred (s : ApplicationState) : Bool :=
  isNonEmptyArray s.componentProperties && isNonEmptyArray s.availableDatasets &&
    isNonEmptyObject s.datasetFields && isNonNil s.selectedDataset &&
    true

/-- An instance of the `AppModes` tagged union (lines 196-218): one of the
three variants, each carrying the five validated state fields (equivalently,
the state record they were copied from). -/
inductive AppModes where
  | Init (s : ApplicationState)
  | DatasetSelection (s : ApplicationState)
  | BindingSelection (s : ApplicationState)
deriving DecidableEq, Repr

/-- `AppModes.InitOf(state)`: union-type validates every field against the
`Init` validators and throws a `TypeError` if one fails. -/
def tryInitOf (state : ApplicationState) : Except JsErr AppModes :=
  if InitPred state then .ok (.Init state) else .error .validationError

/-- `AppModes.DatasetSelectionOf(state)`. -/
def tryDatasetSelectionOf (state : ApplicationState) : Except JsErr AppModes :=
  if DatasetSelectionPred state then .ok (.DatasetSelection state)
  else .error .validationError

/-- `AppModes.BindingSelectionOf(state)`. -/
def tryBindingSelectionOf (state : ApplicationState) : Except JsErr AppModes :=
  if BindingSelectionPred state then .ok (.BindingSelection state)
  else .error .validationError

/-- `AppModes.stateOf(mode)` (lines 251-261): `pickBy` of the five state
keys out of the mode instance, which recovers exactly the wrapped state. -/
def AppModes.stateOf : AppModes → ApplicationState
  | .Init s => s
  | .DatasetSelection s => s
  | .BindingSelection s => s

/-- The keys of the `AppModes` object that end in `'Of'` at the time
`appModeOf` runs: the three variant constructors created by union-type, then
`appModeOf` (line 234) and `stateOf` (line 251), in insertion order. -/
inductive ModeKey where
  | initOf
  | datasetSelectionOf
  | bindingSelectionOf
  | appModeOfKey
  | stateOfKey
deriving DecidableEq, Repr

/-- `Object.keys(AppModes).filter(key => key.endsWith('Of'))` (line 235). -/
def availableModes : List ModeKey :=
  [.initOf, .datasetSelectionOf, .bindingSelectionOf, .appModeOfKey, .stateOfKey]

/-- `firstMapped(fn, array)` (lines 222-232): left fold that records the
first truthy `fn value` (truthy = `some`) and ignores the rest. -/
def firstMapped (fn : α → Option β) (array : List α) : List β :=
  array.foldl
    (fun acc value =>
      if acc.length = 0 then
        match fn value with
        | some mappedValue => acc ++ [mappedValue]
        | none => acc
      else acc)
    []

/-- The body of the arrow function passed to `firstMapped` inside
`appModeOf` (lines 236-242): call `AppModes[modeCreator](state)` inside
`try`/`catch`, a thrown exception becoming `false` (`none`).  The probe of
the key `appModeOf` is the recursive call, whose outcome is passed in as
`recursionResult`; the probe of `stateOf` is `pickBy` of the five state keys
out of `state`, which never throws and returns the (truthy, non-`AppModes`)
state record itself. -/
def probe (recursionResult : Except JsErr (AppModes ⊕ ApplicationState))
    (state : ApplicationState) : ModeKey → Option (AppModes ⊕ ApplicationState)
  | .initOf => ((tryInitOf state).map Sum.inl).toOption
  | .datasetSelectionOf => ((tryDatasetSelectionOf state).map Sum.inl).toOption
  | .bindingSelectionOf => ((tryBindingSelectionOf state).map Sum.inl).toOption
  | .appModeOfKey => recursionResult.toOption
  | .stateOfKey => some (Sum.inr state)

/-- `AppModes.appModeOf(state)` (lines 234-249) with an explicit fuel bound
on the depth of the self-recursion through the `appModeOf` key; fuel
exhaustion is the stack-overflow `RangeError`.  The result is either an
`AppModes` instance (`Sum.inl`) or the plain state record returned by the
`stateOf` probe (`Sum.inr`). -/
def appModeOfF : Nat → ApplicationState → Except JsErr (AppModes ⊕ ApplicationState)
  | 0, _ => .error .stackOverflow
  | fuel + 1, state =>
    match firstMapped (probe (appModeOfF fuel state) state) availableModes with
    | [] => .error .invalidState
    | firstMatchingMode :: _ => .ok firstMatchingMode

/-- `AppModes.appModeOf(state)`: the fuel-independent value of `appModeOfF`
(every positive fuel yields the same result, see `appModeOfF_succ`). -/
def appModeOf (state : ApplicationState) : Except JsErr (AppModes ⊕ ApplicationState) :=
  appModeOfF 1 state

/-- `Object.assign({}, acc, {[key]: value})` on a string-keyed object:
updating an existing key keeps its position, a new key is appended. -/
def objAssign (acc : List (String × α)) (key : String) (value : α) :
    List (String × α) :=
  if acc.any (fun p => p.1 == key) then
    acc.map (fun p => if p.1 == key then (key, value) else p)
  else acc ++ [(key, value)]

/-- JS property read `obj[key]` on a string-keyed object. -/
def lookupObj (obj : List (String × α)) (key : String) : Option α :=
  (obj.find? (fun p => p.1 == key)).map (·.2)

/-- `initModeReducer` (lines 267-283): handles `InitApp`, every other action
falls to the `_` case which throws `Error('bad state for action')`.  The
JS value returned by the reducer is `some` state (or would be `undefined`,
`none`, if a handler returned nothing). -/
def initModeReducer (state : ApplicationState) (action : Action) :
    Except JsErr (Option ApplicationState) :=
  match action with
  | .InitApp props datasets =>
    .ok (some
      { state with
        componentProperties := props
        availableDatasets := datasets.map (fun d => d.name)
        datasetFields :=
          datasets.foldl (fun acc value => objAssign acc value.name value.fields) [] })
  | _ => .error .illegalTransition

/-- `selectDatasetReducer` (lines 285-295): handles `SelectDataset`, every
other action falls to the throwing `_` case. -/
def selectDatasetReducer (state : ApplicationState) (action : Action) :
    Except JsErr (Option ApplicationState) :=
  match action with
  | .SelectDataset dataset =>
    .ok (some { state with selectedDataset := some dataset })
  | _ => .error .illegalTransition

/-- `AppModes.prototype.reduce` (lines 301-308): recover the state record
with `stateOf`, then dispatch on the mode.  The `BindingSelection` handler
is `() => {}`, whose JS return value is `undefined` (`none`). -/
def AppModes.reduce (mode : AppModes) (action : Action) :
    Except JsErr (Option ApplicationState) :=
  let state := mode.stateOf
  match mode with
  | .Init _ => initModeReducer state action
  | .DatasetSelection _ => selectDatasetReducer state action
  | .BindingSelection _ => .ok none

/-- `const reducer = (state, action) => AppModes.appModeOf(state).reduce(action)`
(lines 312-314).  When `appModeOf` returns the plain state record (the
`stateOf` probe), that object has no `reduce` method and the call throws a
`TypeError`. -/
def reducer (state : ApplicationState) (action : Action) :
    Except JsErr (Option ApplicationState) :=
  match appModeOf state with
  | .error e => .error e
  | .ok (.inl mode) => mode.reduce action
  | .ok (.inr _) => .error .typeError

/-- `patternMatchingReducder` (lines 89-108, name as in the source): plain
`action.case` dispatch with no mode check; the `ClearDataset`, `BindProp`
and `ClearProp` handlers are `() => {}`, returning `undefined` (`none`). -/
def patternMatchingReducder (state : ApplicationState) (action : Action) :
    Option ApplicationState :=
  match action with
  | .InitApp props datasets =>
    some
      { state with
        componentProperties := props
        availableDatasets := datasets.map (fun d => d.name)
        datasetFields :=
          datasets.foldl (fun acc value => objAssign acc value.name value.fields) [] }
  | .SelectDataset dataset =>
    some { state with selectedDataset := some dataset }
  | .ClearDataset => none
  | .BindProp _ _ => none
  | .ClearProp _ => none

/-- Number of the three mode predicates that hold of a state. -/
def modeCount (s : ApplicationState) : Nat :=
  (if InitPred s then 1 else 0) + (if DatasetSelectionPred s then 1 else 0) +
    (if BindingSelectionPred s then 1 else 0)

/-!  The dynamic (duck-typed) layer used by Dataset construction.  The
`fields` argument of `Dataset.DatasetOf` is an arbitrary JS array; each
element is checked with `Field.prototype.isPrototypeOf`, which holds exactly
of values built by the `Field` constructor. -/

/-- An arbitrary JS value that may appear in the `fields` array handed to
`Dataset.DatasetOf`: either an actual `Field` instance, or a plain object
with string-valued properties (such as `{name: 'title'}`). -/
inductive JsVal where
  | fieldInst (f : Field)
  | plainObj (props : List (String × String))
deriving DecidableEq, Repr

/-- `Field.prototype.isPrototypeOf(v)`: true exactly of `Field` instances. -/
def isFieldInstance : JsVal → Bool
  | .fieldInst _ => true
  | .plainObj _ => false

/-- `const isArrayOfFields = every(Field.prototype.isPrototypeOf.bind(...))`
(lines 49-51). -/
def isArrayOfFields (fields : List JsVal) : Bool :=
  every isFieldInstance fields

/-- The payload of a `Field` instance. -/
def extractField : JsVal → Option Field
  | .fieldInst f => some f
  | .plainObj _ => none

/-- `Dataset.DatasetOf({name, controllerRef, fields})` (lines 53-55):
union-type validates `name` against `String`, `controllerRef` against
`Object` (both guaranteed by the types here) and `fields` against
`isArrayOfFields`, throwing a `TypeError` when validation fails. -/
def DatasetOf (name : String) (controllerRef : ControllerRef)
    (fields : List JsVal) : Except JsErr Dataset :=
  if isArrayOfFields fields then
    .ok ⟨name, controllerRef, fields.filterMap extractField⟩
  else .error .validationError

/-! Sample data from the script (lines 112-143), used as concrete witnesses. -/

/-- `const prop = Prop.PropOf({name: 'value', types: ['Text', 'Number']})`. -/
def propValue : Prop' := ⟨"value", ["Text", "Number"]⟩

/-- `const titleField = Field.FieldOf({name: 'title', type: 'Text'})`. -/
def titleField : Field := ⟨"title", "Text"⟩

/-- `const priceField = Field.FieldOf({name: 'price', type: 'Number'})`. -/
def priceField : Field := ⟨"price", "Number"⟩

/-- `const datasetA = Dataset.DatasetOf({name: 'Catalog', ...})`. -/
def datasetA : Dataset :=
  ⟨"Catalog", ⟨"something", "somesuch"⟩, [titleField, priceField]⟩

/-- `invoiceNumberField` (lines 123-126). -/
def invoiceNumberField : Field := ⟨"invoiceNumber", "Number"⟩

/-- `totalAmountField` (line 127). -/
def totalAmountField : Field := ⟨"totalAmount", "Number"⟩

/-- `emailField` (line 128). -/
def emailField : Field := ⟨"email", "Text"⟩

/-- `const datasetB = Dataset.DatasetOf({name: 'Purchases', ...})`. -/
def datasetB : Dataset :=
  ⟨"Purchases", ⟨"somethingElse", "somesuchOther"⟩,
    [invoiceNumberField, totalAmountField, emailField]⟩

/-- `const initAppAction = actions.InitAppOf({props: [prop], datasets: [datasetA, datasetB]})`. -/
def initAppAction : Action := .InitApp [propValue] [datasetA, datasetB]

/-- `const selectDatasetAction = actions.SelectDatasetOf({dataset: 'Catalog'})`. -/
def selectDatasetAction : Action := .SelectDataset "Catalog"

/-- The state `reducer(initialState, initAppAction)` evaluates to
(line 316), written out. -/
def stateAfterInit : ApplicationState :=
  { componentProperties := [propValue]
    availableDatasets := ["Catalog", "Purchases"]
    datasetFields :=
      [("Catalog", [titleField, priceField]),
       ("Purchases", [invoiceNumberField, totalAmountField, emailField])]
    selectedDataset := none
    bindings := [] }

/-- The state `reducer(stateAfterInit, selectDatasetAction)` evaluates to
(line 323), written out. -/
def stateWithSelectedDataset : ApplicationState :=
  { stateAfterInit with selectedDataset := some "Catalog" }

/-- A shape no mode predicate accepts: `componentProperties` empty while
`availableDatasets` is not. -/
def invalidShapedState : ApplicationState :=
  { componentProperties := []
    availableDatasets := ["Catalog"]
    datasetFields := []
    selectedDataset := none
    bindings := [] }

/-- The record built by the `InitApp` arm of `initModeReducer`
(lines 270-278): `Object.assign({}, state, {componentProperties: props,
availableDatasets: names, datasetFields: name-to-fields})`. -/
def initAppResult (s : ApplicationState) (props : List Prop')
    (datasets : List Dataset) : ApplicationState :=
  { s with
    componentProperties := props
    availableDatasets := datasets.map (fun d => d.name)
    datasetFields :=
      datasets.foldl (fun acc value => objAssign acc value.name value.fields) [] }

/-- A second dataset that reuses the name `Catalog` (a constructed input,
not in the script's sample data). -/
def datasetCatalogAlt : Dataset := ⟨"Catalog", ⟨"other", "ref"⟩, [emailField]⟩

/-- `reducer(initialState, InitApp({props: [], datasets: [datasetA]}))`:
component properties stay empty while the dataset lists fill up. -/
def emptyPropsInitResult : ApplicationState :=
  { componentProperties := []
    availableDatasets := ["Catalog"]
    datasetFields := [("Catalog", [titleField, priceField])]
    selectedDataset := none
    bindings := [] }

/-- `reducer(initialState, InitApp({props: [], datasets: [datasetA, datasetCatalogAlt]}))`:
the duplicated name `Catalog` ends up mapped to the second dataset's fields. -/
def duplicateNameInitResult : ApplicationState :=
  { componentProperties := []
    availableDatasets := ["Catalog", "Catalog"]
    datasetFields := [("Catalog", [emailField])]
    selectedDataset := none
    bindings := [] }

deriving instance DecidableEq for Except

/-! Lemmas about the classifier. -/

/-- Closed form of the classifier: the three variant probes are tried in
declaration order; when none matches, the probe of the `appModeOf` key fails
(at fuel 1 the recursive call overflows at once and the exception is
caught), and the `stateOf` probe then returns the plain state record. -/
theorem appModeOf_eq (s : ApplicationState) :
    appModeOf s =
      if InitPred s then .ok (.inl (.Init s))
      else if DatasetSelectionPred s then .ok (.inl (.DatasetSelection s))
      else if BindingSelectionPred s then .ok (.inl (.BindingSelection s))
      else .ok (.inr s) := by
  cases h1 : InitPred s <;> cases h2 : DatasetSelectionPred s <;>
    cases h3 : BindingSelectionPred s <;>
    simp [appModeOf, appModeOfF, firstMapped, availableModes, probe, tryInitOf,
      tryDatasetSelectionOf, tryBindingSelectionOf, h1, h2, h3, Except.toOption,
      Except.map]

/-- The classifier's value does not depend on the available stack depth:
every positive fuel gives the result of `appModeOf`. -/
theorem appModeOfF_succ (fuel : Nat) (s : ApplicationState) :
    appModeOfF (fuel + 1) s = appModeOf s := by
  induction fuel with
  | zero => rfl
  | succ f ih =>
    rw [show appModeOfF (f + 1 + 1) s =
        (match firstMapped (probe (appModeOfF (f + 1) s) s) availableModes with
          | [] => .error .invalidState
          | firstMatchingMode :: _ => .ok firstMatchingMode) from rfl,
      ih, appModeOf_eq]
    cases h1 : InitPred s <;> cases h2 : DatasetSelectionPred s <;>
      cases h3 : BindingSelectionPred s <;>
      simp [appModeOf, appModeOfF, firstMapped, availableModes, probe, tryInitOf,
        tryDatasetSelectionOf, tryBindingSelectionOf, h1, h2, h3, Except.toOption,
        Except.map]

/-! Lemmas about `objAssign` / `lookupObj`. -/

theorem objAssign_ne_nil (o : List (String × α)) (k : String) (v : α) :
    objAssign o k v ≠ [] := by
  unfold objAssign
  split
  next hany =>
    intro hmap
    rw [List.map_eq_nil_iff] at hmap
    subst hmap
    simp at hany
  next => simp

theorem foldl_objAssign_ne_nil (ds : List Dataset) (acc : List (String × List Field))
    (h : acc ≠ []) :
    ds.foldl (fun acc value => objAssign acc value.name value.fields) acc ≠ [] := by
  induction ds generalizing acc with
  | nil => exact h
  | cons d ds ih => exact ih _ (objAssign_ne_nil _ _ _)

theorem foldl_objAssign_ne_nil_of_ne (ds : List Dataset) (h : ds ≠ []) :
    ds.foldl (fun acc value => objAssign acc value.name value.fields) [] ≠ [] := by
  cases ds with
  | nil => exact absurd rfl h
  | cons d ds =>
    rw [List.foldl_cons]
    exact foldl_objAssign_ne_nil ds _ (objAssign_ne_nil _ _ _)

theorem lookupObj_cons_eq (p : String × α) (L : List (String × α)) (key : String)
    (h : (p.1 == key) = true) : lookupObj (p :: L) key = some p.2 := by
  simp [lookupObj, List.find?, h]

theorem lookupObj_cons_ne (p : String × α) (L : List (String × α)) (key : String)
    (h : (p.1 == key) = false) : lookupObj (p :: L) key = lookupObj L key := by
  simp [lookupObj, List.find?, h]

theorem objAssign_cons_hit (p : String × α) (o : List (String × α)) (k : String)
    (v : α) (hp : (p.1 == k) = true) :
    objAssign (p :: o) k v = (k, v) :: o.map (fun q => if q.1 == k then (k, v) else q) := by
  have hp' : p.1 = k := by simpa using hp
  simp [objAssign, List.any_cons, hp, hp']

theorem objAssign_cons_miss (p : String × α) (o : List (String × α)) (k : String)
    (v : α) (hp : (p.1 == k) = false) :
    objAssign (p :: o) k v = p :: objAssign o k v := by
  have hp' : ¬p.1 = k := by simpa using hp
  cases hany : (o.any fun q => q.1 == k) <;>
    simp [objAssign, List.any_cons, hp, hp', hany]

theorem lookupObj_mapUpdate_ne (o : List (String × α)) (k : String) (v : α)
    (key : String) (h : (k == key) = false) :
    lookupObj (o.map (fun q => if q.1 == k then (k, v) else q)) key = lookupObj o key := by
  induction o with
  | nil => rfl
  | cons q o ih =>
    cases hq : (q.1 == k) with
    | true =>
      have hqkey : (q.1 == key) = false := by
        rw [show q.1 = k from by simpa using hq]; exact h
      rw [List.map_cons, if_pos hq, lookupObj_cons_ne _ _ _ h,
        lookupObj_cons_ne _ _ _ hqkey, ih]
    | false =>
      rw [List.map_cons, if_neg (by simp [hq])]
      cases hqkey : (q.1 == key) with
      | true => rw [lookupObj_cons_eq _ _ _ hqkey, lookupObj_cons_eq _ _ _ hqkey]
      | false => rw [lookupObj_cons_ne _ _ _ hqkey, lookupObj_cons_ne _ _ _ hqkey, ih]

theorem lookupObj_objAssign_self (o : List (String × α)) (k : String) (v : α) :
    lookupObj (objAssign o k v) k = some v := by
  induction o with
  | nil => simp [objAssign, lookupObj, List.find?]
  | cons p o ih =>
    cases hp : (p.1 == k) with
    | true =>
      rw [objAssign_cons_hit _ _ _ _ hp]
      exact lookupObj_cons_eq _ _ _ (by simp)
    | false => rw [objAssign_cons_miss _ _ _ _ hp, lookupObj_cons_ne _ _ _ hp, ih]

theorem lookupObj_objAssign_ne (o : List (String × α)) (k : String) (v : α)
    (key : String) (h : key ≠ k) :
    lookupObj (objAssign o k v) key = lookupObj o key := by
  have hkk : (k == key) = false := by simp; exact fun hh => h hh.symm
  induction o with
  | nil => simp [objAssign, lookupObj, List.find?, hkk]
  | cons p o ih =>
    cases hp : (p.1 == k) with
    | true =>
      have hpkey : (p.1 == key) = false := by
        rw [show p.1 = k from by simpa using hp]; exact hkk
      rw [objAssign_cons_hit _ _ _ _ hp, lookupObj_cons_ne _ _ _ hkk,
        lookupObj_mapUpdate_ne _ _ _ _ hkk, lookupObj_cons_ne _ _ _ hpkey]
    | false =>
      rw [objAssign_cons_miss _ _ _ _ hp]
      cases hpkey : (p.1 == key) with
      | true => rw [lookupObj_cons_eq _ _ _ hpkey, lookupObj_cons_eq _ _ _ hpkey]
      | false => rw [lookupObj_cons_ne _ _ _ hpkey, lookupObj_cons_ne _ _ _ hpkey, ih]

theorem lookupObj_foldl_not_mem (ds : List Dataset) (acc : List (String × List Field))
    (key : String) (h : key ∉ ds.map (fun d => d.name)) :
    lookupObj (ds.foldl (fun acc value => objAssign acc value.name value.fields) acc) key
      = lookupObj acc key := by
  induction ds generalizing acc with
  | nil => rfl
  | cons d ds ih =>
    simp only [List.map_cons, List.mem_cons, not_or] at h
    rw [List.foldl_cons, ih _ h.2, lookupObj_objAssign_ne _ _ _ _ h.1]

theorem lookupObj_foldl_mem (ds : List Dataset)
    (hnd : (ds.map (fun d => d.name)).Nodup) (d : Dataset) (hd : d ∈ ds)
    (acc : List (String × List Field)) :
    lookupObj (ds.foldl (fun acc value => objAssign acc value.name value.fields) acc) d.name
      = some d.fields := by
  induction ds generalizing acc with
  | nil => exact absurd hd (List.not_mem_nil d)
  | cons e ds ih =>
    simp only [List.map_cons, List.nodup_cons] at hnd
    rcases List.mem_cons.mp hd with rfl | hmem
    · rw [List.foldl_cons, lookupObj_foldl_not_mem _ _ _ hnd.1,
        lookupObj_objAssign_self]
    · rw [List.foldl_cons]
      exact ih hnd.2 hmem _

/-! Characterisations of the mode predicates and the classifier. -/

theorem InitPred_iff (s : ApplicationState) :
    InitPred s = true ↔
      s.componentProperties = [] ∧ s.availableDatasets = [] ∧
        s.datasetFields = [] ∧ s.selectedDataset = none ∧ s.bindings = [] := by
  simp [InitPred, isEmptyArray, isEmptyObject, isNil, List.length_eq_zero,
    Option.isNone_iff_eq_none, and_assoc]

theorem DatasetSelectionPred_iff (s : ApplicationState) :
    DatasetSelectionPred s = true ↔
      s.componentProperties ≠ [] ∧ s.availableDatasets ≠ [] ∧
        s.datasetFields ≠ [] ∧ s.selectedDataset = none ∧ s.bindings = [] := by
  simp [DatasetSelectionPred, isNonEmptyArray, isNonEmptyObject, isNil,
    isEmptyObject, List.length_pos, List.length_eq_zero,
    Option.isNone_iff_eq_none, and_assoc]

theorem BindingSelectionPred_iff (s : ApplicationState) :
    BindingSelectionPred s = true ↔
      s.componentProperties ≠ [] ∧ s.availableDatasets ≠ [] ∧
        s.datasetFields ≠ [] ∧ s.selectedDataset ≠ none := by
  simp [BindingSelectionPred, isNonEmptyArray, isNonEmptyObject, isNonNil,
    List.length_pos, Option.isSome_iff_ne_none, and_assoc]

theorem not_init_of_ds (s : ApplicationState)
    (h : DatasetSelectionPred s = true) : ¬InitPred s = true := by
  rw [DatasetSelectionPred_iff] at h
  rw [InitPred_iff]
  intro hI
  exact h.1 hI.1

theorem not_init_of_bs (s : ApplicationState)
    (h : BindingSelectionPred s = true) : ¬InitPred s = true := by
  rw [BindingSelectionPred_iff] at h
  rw [InitPred_iff]
  intro hI
  exact h.1 hI.1

theorem not_ds_of_bs (s : ApplicationState)
    (h : BindingSelectionPred s = true) : ¬DatasetSelectionPred s = true := by
  rw [BindingSelectionPred_iff] at h
  rw [DatasetSelectionPred_iff]
  intro hD
  exact h.2.2.2 hD.2.2.2.1

theorem appModeOf_of_init (s : ApplicationState) (h : InitPred s = true) :
    appModeOf s = .ok (.inl (.Init s)) := by
  rw [appModeOf_eq, if_pos h]

theorem appModeOf_of_ds (s : ApplicationState)
    (h : DatasetSelectionPred s = true) :
    appModeOf s = .ok (.inl (.DatasetSelection s)) := by
  rw [appModeOf_eq, if_neg (not_init_of_ds s h), if_pos h]

theorem appModeOf_of_bs (s : ApplicationState)
    (h : BindingSelectionPred s = true) :
    appModeOf s = .ok (.inl (.BindingSelection s)) := by
  rw [appModeOf_eq, if_neg (not_init_of_bs s h), if_neg (not_ds_of_bs s h),
    if_pos h]

theorem appModeOf_of_none (s : ApplicationState) (h1 : InitPred s = false)
    (h2 : DatasetSelectionPred s = false) (h3 : BindingSelectionPred s = false) :
    appModeOf s = .ok (.inr s) := by
  rw [appModeOf_eq, if_neg (by simp [h1]), if_neg (by simp [h2]),
    if_neg (by simp [h3])]

theorem reducer_eq_of_mode (s : ApplicationState) (a : Action) (m : AppModes)
    (h : appModeOf s = .ok (.inl m)) : reducer s a = m.reduce a := by
  unfold reducer
  rw [h]

theorem reducer_typeError (s : ApplicationState) (a : Action)
    (s₂ : ApplicationState) (h : appModeOf s = .ok (.inr s₂)) :
    reducer s a = .error .typeError := by
  unfold reducer
  rw [h]

/-! The claims. -/

/-- C10: over arbitrary `ApplicationState` values, at most one of the three
mode predicates holds — `Init` and the other two disagree on
`componentProperties` being empty, and `DatasetSelection` and
`BindingSelection` disagree on `selectedDataset` being null — so the
classifier's first-match order never has to decide between two
simultaneously matching modes. -/
theorem claim10_mode_predicates_mutually_exclusive :
    ∀ s : ApplicationState,
      (InitPred s && DatasetSelectionPred s) = false ∧
      (InitPred s && BindingSelectionPred s) = false ∧
      (DatasetSelectionPred s && BindingSelectionPred s) = false ∧
      modeCount s ≤ 1 := by
  intro s
  have h1 : (InitPred s && DatasetSelectionPred s) = false := by
    cases hD : DatasetSelectionPred s with
    | false => simp
    | true => simp [Bool.eq_false_iff.mpr (not_init_of_ds s hD)]
  have h2 : (InitPred s && BindingSelectionPred s) = false := by
    cases hB : BindingSelectionPred s with
    | false => simp
    | true => simp [Bool.eq_false_iff.mpr (not_init_of_bs s hB)]
  have h3 : (DatasetSelectionPred s && BindingSelectionPred s) = false := by
    cases hB : BindingSelectionPred s with
    | false => simp
    | true => simp [Bool.eq_false_iff.mpr (not_ds_of_bs s hB)]
  refine ⟨h1, h2, h3, ?_⟩
  unfold modeCount
  cases hI : InitPred s <;> cases hD : DatasetSelectionPred s <;>
    cases hB : BindingSelectionPred s <;> simp_all

/-- C2 (code bug): at the concrete state `invalidShapedState`, which matches
no mode predicate, `appModeOf` never raises the invalid-state error at any
stack depth — the `endsWith('Of')` filter also captures the `appModeOf` and
`stateOf` keys, so after the self-recursive probe fails the `stateOf` probe
returns the (truthy) plain state record and classification "succeeds"; the
subsequent `.reduce(action)` call then throws a `TypeError` instead of the
specified `InvalidStateError`. -/
theorem claim2_invalid_state_error_unreachable :
    modeCount invalidShapedState = 0 ∧
    (∀ fuel : Nat, appModeOfF fuel invalidShapedState ≠ .error .invalidState) ∧
    appModeOf invalidShapedState = .ok (.inr invalidShapedState) ∧
    reducer invalidShapedState selectDatasetAction = .error .typeError := by
  refine ⟨by decide, ?_, by decide, by decide⟩
  intro fuel
  cases fuel with
  | zero => decide
  | succ f =>
    rw [appModeOfF_succ]
    decide

/-- C4: in a `DatasetSelection` state, `SelectDataset n` produces the same
state with only `selectedDataset` set to `n`, and the result always
satisfies the `BindingSelection` predicate; `n` is universally quantified
with no membership condition on `availableDatasets`, reflecting that the
code performs no such check. -/
theorem claim4_select_dataset_reduction (s : ApplicationState) (n : String)
    (hs : DatasetSelectionPred s = true) :
    reducer s (.SelectDataset n) = .ok (some { s with selectedDataset := some n }) ∧
    BindingSelectionPred { s with selectedDataset := some n } = true := by
  constructor
  · rw [reducer_eq_of_mode s _ _ (appModeOf_of_ds s hs)]
    rfl
  · obtain ⟨hc, ha, hf, _, _⟩ := (DatasetSelectionPred_iff s).mp hs
    rw [BindingSelectionPred_iff]
    exact ⟨by simpa using hc, by simpa using ha, by simpa using hf, by simp⟩

/-- C4 witness: selecting a dataset name that does not occur in
`availableDatasets` still succeeds and lands in `BindingSelection`. -/
theorem claim4_witness :
    reducer stateAfterInit (.SelectDataset "Nonexistent") =
      .ok (some { stateAfterInit with selectedDataset := some "Nonexistent" }) ∧
    BindingSelectionPred { stateAfterInit with selectedDataset := some "Nonexistent" } = true :=
  claim4_select_dataset_reduction stateAfterInit "Nonexistent" (by decide)

/-- C5: in an `Init` state (in particular the initial empty state), every
action other than `InitApp` falls to the `_` arm of `initModeReducer` and
raises the illegal-transition error, producing no state. -/
theorem claim5_init_rejects_non_init_actions (s : ApplicationState) (a : Action)
    (hs : InitPred s = true)
    (ha : ∀ props datasets, a ≠ .InitApp props datasets) :
    reducer s a = .error .illegalTransition := by
  rw [reducer_eq_of_mode s a _ (appModeOf_of_init s hs)]
  cases a with
  | InitApp props datasets => exact absurd rfl (ha props datasets)
  | SelectDataset d => rfl
  | ClearDataset => rfl
  | BindProp p f => rfl
  | ClearProp p => rfl

/-- C5 witness: dispatching `SelectDataset('Catalog')` against the initial
empty state (line 321 of the script) raises the illegal-transition error. -/
theorem claim5_witness :
    reducer initialState selectDatasetAction = .error .illegalTransition :=
  claim5_init_rejects_non_init_actions initialState selectDatasetAction
    (by decide)
    (fun props datasets h =>
      Action.noConfusion
        (show Action.SelectDataset "Catalog" = Action.InitApp props datasets from h))

/-- C6 (amended): in a `BindingSelection` state, every action hits the
`BindingSelection: () => {}` arm of `AppModes.prototype.reduce`, which
returns `undefined`: reduction yields no new state but also raises no
`IllegalTransitionError`. -/
theorem claim6_binding_selection_returns_undefined (s : ApplicationState)
    (a : Action) (hs : BindingSelectionPred s = true) :
    reducer s a = .ok none := by
  rw [reducer_eq_of_mode s a _ (appModeOf_of_bs s hs)]
  rfl

/-- C6 counterexample: reducing the concrete `BindingSelection` state from
the script with `SelectDataset('Catalog')` returns `undefined` and does not
raise the illegal-transition error, contradicting the claim. -/
theorem claim6_counterexample :
    reducer stateWithSelectedDataset selectDatasetAction = .ok none ∧
    reducer stateWithSelectedDataset selectDatasetAction ≠
      .error .illegalTransition := by
  decide

/-- C6 witness for the amended statement. -/
theorem claim6_witness :
    reducer stateWithSelectedDataset .ClearDataset = .ok none :=
  claim6_binding_selection_returns_undefined stateWithSelectedDataset
    .ClearDataset (by decide)

/-- C7: `Dataset` construction validates every element of `fields` with
`Field.prototype.isPrototypeOf`: a successfully constructed dataset had only
`Field` instances in `fields`, any non-`Field` element (such as a plain
object lacking `type`) makes construction fail with the validation
`TypeError`, and the concrete scenario-5 input fails. -/
theorem claim7_dataset_fields_validation :
    (∀ (name : String) (controllerRef : ControllerRef) (fields : List JsVal)
        (d : Dataset), DatasetOf name controllerRef fields = .ok d →
        ∀ v ∈ fields, isFieldInstance v = true) ∧
    (∀ (name : String) (controllerRef : ControllerRef) (fields : List JsVal)
        (v : JsVal), v ∈ fields → isFieldInstance v = false →
        DatasetOf name controllerRef fields = .error .validationError) ∧
    DatasetOf "Catalog" ⟨"something", "somesuch"⟩
      [.fieldInst titleField, .plainObj [("name", "price")]] =
      .error .validationError := by
  refine ⟨?_, ?_, by decide⟩
  · intro name ref fields d hok v hv
    unfold DatasetOf at hok
    by_cases hall : isArrayOfFields fields = true
    · unfold isArrayOfFields every at hall
      exact List.all_eq_true.mp hall v hv
    · rw [if_neg hall] at hok
      exact Except.noConfusion hok
  · intro name ref fields v hv hfalse
    have hne : ¬isArrayOfFields fields = true := fun hall => by
      have hv' := List.all_eq_true.mp
        (by simpa [isArrayOfFields, every] using hall) v hv
      simp [hfalse] at hv'
    unfold DatasetOf
    rw [if_neg hne]

/-- C7 witness: the universal part applied to a concrete well-formed
construction. -/
theorem claim7_witness : isFieldInstance (JsVal.fieldInst titleField) = true :=
  claim7_dataset_fields_validation.1 "Catalog" ⟨"something", "somesuch"⟩
    [JsVal.fieldInst titleField, JsVal.fieldInst priceField]
    ⟨"Catalog", ⟨"something", "somesuch"⟩, [titleField, priceField]⟩
    (by decide) (JsVal.fieldInst titleField) (by simp)

/-- C8: an exception thrown while probing a mode predicate is caught inside
the classifier and treated as "does not match": if the `Init` probe throws
and the `DatasetSelection` probe matches, or both throw and the
`BindingSelection` probe matches, classification returns that later mode at
every stack depth; outside the classifier, an error raised by a mode's
reducer propagates unchanged through `reducer`. -/
theorem claim8_predicate_exceptions_not_propagated :
    (∀ (s : ApplicationState) (fuel : Nat) (e : JsErr) (m : AppModes),
        tryInitOf s = .error e → tryDatasetSelectionOf s = .ok m →
        appModeOfF (fuel + 1) s = .ok (.inl m)) ∧
    (∀ (s : ApplicationState) (fuel : Nat) (e e' : JsErr) (m : AppModes),
        tryInitOf s = .error e → tryDatasetSelectionOf s = .error e' →
        tryBindingSelectionOf s = .ok m →
        appModeOfF (fuel + 1) s = .ok (.inl m)) ∧
    (∀ (s : ApplicationState) (a : Action) (m : AppModes) (e : JsErr),
        appModeOf s = .ok (.inl m) → AppModes.reduce m a = .error e →
        reducer s a = .error e) := by
  refine ⟨?_, ?_, ?_⟩
  · intro s fuel e m hI hD
    unfold tryInitOf at hI
    unfold tryDatasetSelectionOf at hD
    by_cases h1 : InitPred s = true
    · rw [if_pos h1] at hI
      exact Except.noConfusion hI
    · by_cases h2 : DatasetSelectionPred s = true
      · rw [if_pos h2] at hD
        injection hD with hm
        subst hm
        rw [appModeOfF_succ, appModeOf_eq, if_neg h1, if_pos h2]
      · rw [if_neg h2] at hD
        exact Except.noConfusion hD
  · intro s fuel e e' m hI hD hB
    unfold tryInitOf at hI
    unfold tryDatasetSelectionOf at hD
    unfold tryBindingSelectionOf at hB
    by_cases h1 : InitPred s = true
    · rw [if_pos h1] at hI
      exact Except.noConfusion hI
    · by_cases h2 : DatasetSelectionPred s = true
      · rw [if_pos h2] at hD
        exact Except.noConfusion hD
      · by_cases h3 : BindingSelectionPred s = true
        · rw [if_pos h3] at hB
          injection hB with hm
          subst hm
          rw [appModeOfF_succ, appModeOf_eq, if_neg h1, if_neg h2, if_pos h3]
        · rw [if_neg h3] at hB
          exact Except.noConfusion hB
  · intro s a m e hmode hred
    rw [reducer_eq_of_mode s a m hmode, hred]

/-- C8 witness: on `stateAfterInit` the `Init` probe throws a validation
`TypeError`, yet classification returns `DatasetSelection`. -/
theorem claim8_witness :
    appModeOfF 1 stateAfterInit = .ok (.inl (.DatasetSelection stateAfterInit)) :=
  claim8_predicate_exceptions_not_propagated.1 stateAfterInit 0
    .validationError (.DatasetSelection stateAfterInit) (by decide) (by decide)

/-- C9: the mode-scoped `reducer` and the plain `patternMatchingReducder`
agree on `Init` states with `InitApp` actions and on `DatasetSelection`
states with `SelectDataset` actions. -/
theorem claim9_mode_scoped_equals_pattern_matching :
    (∀ (s : ApplicationState) (props : List Prop') (datasets : List Dataset),
        InitPred s = true →
        reducer s (.InitApp props datasets) =
          .ok (patternMatchingReducder s (.InitApp props datasets))) ∧
    (∀ (s : ApplicationState) (n : String),
        DatasetSelectionPred s = true →
        reducer s (.SelectDataset n) =
          .ok (patternMatchingReducder s (.SelectDataset n))) := by
  constructor
  · intro s props datasets hs
    rw [reducer_eq_of_mode s _ _ (appModeOf_of_init s hs)]
    rfl
  · intro s n hs
    rw [reducer_eq_of_mode s _ _ (appModeOf_of_ds s hs)]
    rfl

/-- C9 witness: both reducers compute the same initialised state from the
script's sample data (lines 154 and 316). -/
theorem claim9_witness :
    reducer initialState initAppAction =
      .ok (patternMatchingReducder initialState initAppAction) :=
  claim9_mode_scoped_equals_pattern_matching.1 initialState [propValue]
    [datasetA, datasetB] (by decide)

/-- C1 (amended): exactly one mode predicate holds of every state actually
produced by a legal reduction, provided an `InitApp` action carries
non-empty `props` and `datasets`; an `InitApp` with an empty payload list
can produce a state matching no mode (see the counterexample). -/
theorem claim1_legal_reduction_exactly_one_mode (s s' : ApplicationState)
    (a : Action) (hred : reducer s a = .ok (some s'))
    (hpayload : ∀ props datasets, a = Action.InitApp props datasets →
      props ≠ [] ∧ datasets ≠ []) :
    modeCount s' = 1 := by
  cases hI : InitPred s with
  | true =>
    rw [reducer_eq_of_mode s a _ (appModeOf_of_init s hI)] at hred
    cases a with
    | InitApp props datasets =>
      obtain ⟨hp, hd⟩ := hpayload props datasets rfl
      have hs' : s' = initAppResult s props datasets := by
        have hr : AppModes.reduce (.Init s) (.InitApp props datasets) =
            .ok (some (initAppResult s props datasets)) := rfl
        rw [hr] at hred
        simp only [Except.ok.injEq, Option.some.injEq] at hred
        exact hred.symm
      subst hs'
      obtain ⟨hc, ha2, hf, hsel, hb⟩ := (InitPred_iff s).mp hI
      have hInit : ¬InitPred (initAppResult s props datasets) = true := by
        rw [InitPred_iff]
        intro hh
        exact hp hh.1
      have hDS : DatasetSelectionPred (initAppResult s props datasets) = true := by
        rw [DatasetSelectionPred_iff]
        exact ⟨hp, by simpa [initAppResult] using hd,
          foldl_objAssign_ne_nil_of_ne datasets hd, hsel, hb⟩
      have hBS : ¬BindingSelectionPred (initAppResult s props datasets) = true := by
        rw [BindingSelectionPred_iff]
        intro hh
        exact hh.2.2.2 hsel
      unfold modeCount
      rw [if_neg hInit, if_pos hDS, if_neg hBS]
    | SelectDataset d => simp [AppModes.reduce, initModeReducer] at hred
    | ClearDataset => simp [AppModes.reduce, initModeReducer] at hred
    | BindProp p f => simp [AppModes.reduce, initModeReducer] at hred
    | ClearProp p => simp [AppModes.reduce, initModeReducer] at hred
  | false =>
    cases hD : DatasetSelectionPred s with
    | true =>
      rw [reducer_eq_of_mode s a _ (appModeOf_of_ds s hD)] at hred
      cases a with
      | SelectDataset n =>
        have hs' : s' = { s with selectedDataset := some n } := by
          have hr : AppModes.reduce (.DatasetSelection s) (.SelectDataset n) =
              .ok (some { s with selectedDataset := some n }) := rfl
          rw [hr] at hred
          simp only [Except.ok.injEq, Option.some.injEq] at hred
          exact hred.symm
        subst hs'
        obtain ⟨hc, ha2, hf, hsel, hb⟩ := (DatasetSelectionPred_iff s).mp hD
        have hInit : ¬InitPred { s with selectedDataset := some n } = true := by
          rw [InitPred_iff]
          intro hh
          exact hc hh.1
        have hDS2 : ¬DatasetSelectionPred { s with selectedDataset := some n } = true := by
          rw [DatasetSelectionPred_iff]
          intro hh
          exact Option.noConfusion hh.2.2.2.1
        have hBS : BindingSelectionPred { s with selectedDataset := some n } = true := by
          rw [BindingSelectionPred_iff]
          exact ⟨by simpa using hc, by simpa using ha2, by simpa using hf, by simp⟩
        unfold modeCount
        rw [if_neg hInit, if_neg hDS2, if_pos hBS]
      | InitApp props datasets => simp [AppModes.reduce, selectDatasetReducer] at hred
      | ClearDataset => simp [AppModes.reduce, selectDatasetReducer] at hred
      | BindProp p f => simp [AppModes.reduce, selectDatasetReducer] at hred
      | ClearProp p => simp [AppModes.reduce, selectDatasetReducer] at hred
    | false =>
      cases hB : BindingSelectionPred s with
      | true =>
        rw [reducer_eq_of_mode s a _ (appModeOf_of_bs s hB)] at hred
        simp [AppModes.reduce] at hred
      | false =>
        rw [reducer_typeError s a s (appModeOf_of_none s hI hD hB)] at hred
        exact Except.noConfusion hred

/-- C1 counterexample: `InitApp` with empty `props` is legal in `Init` mode
(union-type accepts the empty array vacuously), yet the produced state
matches none of the three mode predicates, refuting joint exhaustiveness
over reducer-produced states. -/
theorem claim1_counterexample :
    reducer initialState (.InitApp [] [datasetA]) = .ok (some emptyPropsInitResult) ∧
    modeCount emptyPropsInitResult = 0 := by
  decide

/-- C1 witness: the script's own first reduction lands in exactly one
mode. -/
theorem claim1_witness : modeCount stateAfterInit = 1 :=
  claim1_legal_reduction_exactly_one_mode initialState stateAfterInit
    initAppAction (by decide)
    (fun props datasets h => by
      injection (show Action.InitApp [propValue] [datasetA, datasetB] =
        Action.InitApp props datasets from h) with h1 h2
      exact ⟨h1 ▸ (by simp), h2 ▸ (by simp)⟩)

/-- C3 (amended): reducing an `Init` state with `InitApp` populates
`componentProperties`, `availableDatasets` (names only) and `datasetFields`
(name-to-fields); provided `props` and `datasets` are non-empty and the
dataset names are pairwise distinct, each name maps to that dataset's fields
and the result satisfies the `DatasetSelection` predicate. -/
theorem claim3_init_app_reduction (s : ApplicationState) (props : List Prop')
    (datasets : List Dataset) (hs : InitPred s = true) (hp : props ≠ [])
    (hd : datasets ≠ [])
    (hnames : (datasets.map (fun d => d.name)).Nodup) :
    reducer s (.InitApp props datasets) = .ok (some (initAppResult s props datasets)) ∧
    (initAppResult s props datasets).componentProperties = props ∧
    (initAppResult s props datasets).availableDatasets =
      datasets.map (fun d => d.name) ∧
    (∀ d ∈ datasets,
      lookupObj (initAppResult s props datasets).datasetFields d.name =
        some d.fields) ∧
    DatasetSelectionPred (initAppResult s props datasets) = true := by
  refine ⟨?_, rfl, rfl, ?_, ?_⟩
  · rw [reducer_eq_of_mode s _ _ (appModeOf_of_init s hs)]
    rfl
  · intro d hd'
    exact lookupObj_foldl_mem datasets hnames d hd' []
  · obtain ⟨hc, ha, hf, hsel, hb⟩ := (InitPred_iff s).mp hs
    rw [DatasetSelectionPred_iff]
    exact ⟨hp, by simpa [initAppResult] using hd,
      foldl_objAssign_ne_nil_of_ne datasets hd, hsel, hb⟩

/-- C3 counterexample: with empty `props` (and a duplicated dataset name)
the reduction succeeds but the result satisfies no mode predicate, and the
duplicated name `Catalog` is mapped to the fields of the *last* dataset
carrying it, not those of `datasetA`. -/
theorem claim3_counterexample :
    reducer initialState (.InitApp [] [datasetA, datasetCatalogAlt]) =
      .ok (some duplicateNameInitResult) ∧
    DatasetSelectionPred duplicateNameInitResult = false ∧
    modeCount duplicateNameInitResult = 0 ∧
    lookupObj duplicateNameInitResult.datasetFields datasetA.name =
      some [emailField] ∧
    datasetA.fields ≠ [emailField] := by
  decide

/-- C3 witness: the amended statement applied to the script's sample data. -/
theorem claim3_witness :
    DatasetSelectionPred (initAppResult initialState [propValue]
      [datasetA, datasetB]) = true :=
  (claim3_init_app_reduction initialState [propValue] [datasetA, datasetB]
    (by decide) (by simp) (by simp) (by decide)).2.2.2.2

end FunWithRedux

